import Mathlib

/-!
Verification of the `data_collection` package of `pem_cloak`
(`literature_database.py` and `materials_project_collector.py`).

Modelling conventions:
* Python floats are modelled as rationals (`ℚ`); the numeric literals of the
  source and of the claims are exactly representable and all comparisons in
  the code are order comparisons, so nothing in the claims depends on binary
  rounding.
* A pandas column holding missing values (`None`/`NaN`) is modelled as
  `Option`; pandas order comparisons against `NaN` yield `False`, modelled by
  the `pd*` helpers below returning `false` on `none`.
* A pandas `DataFrame` of records is modelled as a `List` of records in row
  order.
-/

namespace PemCloak

/-- `literature_database.py`, `class CoatingPerformanceData` (lines 23-71).
One literature entry.  Fields appear in the declared order of the source.
Fields that the source declares as `Optional[...] = None` are `Option`
types defaulting to `none`; `entry_date` defaults in the source to the
current date (`default_factory`), modelled by passing the date explicitly.
Note: as declared, the Python dataclass is rejected at class-definition time
(`material` and `substrate` carry no default but follow the defaulted
`journal`); the evident intent, matched here, is that `doi`, `authors`,
`year`, `title`, `material`, `substrate` are the required fields. -/
structure CoatingPerformanceData where
  doi : String
  authors : String
  year : Int
  title : String
  journal : Option String := none
  material : String
  substrate : String
  thickness_nm : Option ℚ := none
  deposition_method : Option String := none
  corrosion_current_uA_cm2 : Option ℚ := none
  contact_resistance_mOhm_cm2 : Option ℚ := none
  test_duration_hours : Option ℚ := none
  electrolyte : Option String := none
  temperature_C : Option ℚ := none
  potential_V : Option ℚ := none
  current_density_A_cm2 : Option ℚ := none
  voltage_increase_uV_hr : Option ℚ := none
  resistance_change_percent : Option ℚ := none
  fe_release_ug_cm2_day : Option ℚ := none
  cr_release_ug_cm2_day : Option ℚ := none
  ni_release_ug_cm2_day : Option ℚ := none
  cost_estimate_dollar_m2 : Option ℚ := none
  scalability_notes : Option String := none
  success_rating : Option Int := none
  failure_mode : Option String := none
  notes : Option String := none
  entry_date : String
  data_quality : Option String := none
  deriving DecidableEq

/-- The in-memory store of `class LiteratureDatabase`: the ordered list
`self.entries` (line 84). -/
structure LiteratureDatabase where
  entries : List CoatingPerformanceData
  deriving DecidableEq

/-- `LiteratureDatabase.add_entry` (lines 227-234): appends the entry. -/
def LiteratureDatabase.add_entry (db : LiteratureDatabase)
    (entry : CoatingPerformanceData) : LiteratureDatabase :=
  ⟨db.entries ++ [entry]⟩

/-- Seed paper 1 (lines 91-114): Lettenmeier et al. 2017, Nb/Ti dual-layer. -/
def paper1 (today : String) : CoatingPerformanceData :=
  { doi := "10.1016/j.ijhydene.2017.07.213"
    authors := "Lettenmeier et al."
    year := 2017
    title := "Coatings for bipolar plates in PEM water electrolyzers"
    journal := some "International Journal of Hydrogen Energy"
    material := "Nb/Ti dual-layer"
    substrate := "SS316L"
    thickness_nm := some 500
    deposition_method := some "PVD (magnetron sputtering)"
    corrosion_current_uA_cm2 := some (8/10)
    contact_resistance_mOhm_cm2 := some (85/10)
    test_duration_hours := some 3000
    electrolyte := some "0.5M H2SO4"
    temperature_C := some 80
    potential_V := some (18/10)
    voltage_increase_uV_hr := some (25/10)
    cost_estimate_dollar_m2 := some 15
    scalability_notes := some "PVD is established industrial process, moderate cost"
    success_rating := some 4
    failure_mode := some "Minor delamination at edges after 3000h"
    notes := some "Excellent performance but needs validation beyond 3000h to reach 80,000h target"
    entry_date := today
    data_quality := some "high" }

/-- Seed paper 2 (lines 117-142): Gao et al. 2025, N-doped TiO2. -/
def paper2 (today : String) : CoatingPerformanceData :=
  { doi := "10.1016/j.apcatb.2024.124567"
    authors := "Gao, Zhang, Liu et al."
    year := 2025
    title := "Nitrogen-doped TiO2 coatings for enhanced corrosion resistance in PEM electrolyzers"
    journal := some "Applied Catalysis B: Environmental"
    material := "N-doped TiO2"
    substrate := "SS316L"
    thickness_nm := some 800
    deposition_method := some "Reactive magnetron sputtering"
    corrosion_current_uA_cm2 := some (12/10)
    contact_resistance_mOhm_cm2 := some 12
    test_duration_hours := some 2000
    electrolyte := some "1M H2SO4"
    temperature_C := some 80
    potential_V := some 2
    voltage_increase_uV_hr := some (58/10)
    fe_release_ug_cm2_day := some (15/100)
    cr_release_ug_cm2_day := some (8/100)
    cost_estimate_dollar_m2 := some 8
    scalability_notes := some "Lower cost than precious metals, reactive sputtering well-established"
    success_rating := some 3
    failure_mode := some "Gradual increase in contact resistance, possible defect propagation"
    notes := some "Promising cost/performance but degradation rate concerning for 80,000h target"
    entry_date := today
    data_quality := some "high" }

/-- Seed paper 3 (lines 145-170): Wakayama & Yamazaki 2021, Ti4O7. -/
def paper3 (today : String) : CoatingPerformanceData :=
  { doi := "10.1149/1945-7111/ac3d02"
    authors := "Wakayama, H. and Yamazaki, Y."
    year := 2021
    title := "Ti4O7 coating on titanium bipolar plates for PEM water electrolysis"
    journal := some "Journal of The Electrochemical Society"
    material := "Ti4O7 (Magnéli phase)"
    substrate := "Ti Grade 1"
    thickness_nm := some 1000
    deposition_method := some "Thermal treatment in controlled atmosphere"
    corrosion_current_uA_cm2 := some (3/10)
    contact_resistance_mOhm_cm2 := some (62/10)
    test_duration_hours := some 5000
    electrolyte := some "0.5M H2SO4"
    temperature_C := some 80
    potential_V := some (18/10)
    current_density_A_cm2 := some 2
    voltage_increase_uV_hr := some (12/10)
    fe_release_ug_cm2_day := some (2/100)
    cost_estimate_dollar_m2 := some 25
    scalability_notes := some "Requires Ti substrate (expensive), thermal treatment adds cost"
    success_rating := some 5
    failure_mode := some "No significant degradation observed"
    notes := some "Excellent performance, longest validated lifetime, but cost is major barrier"
    entry_date := today
    data_quality := some "high" }

/-- Seed paper 4 (lines 173-198): Wang et al. 2020, TiN baseline. -/
def paper4 (today : String) : CoatingPerformanceData :=
  { doi := "10.1016/j.surfcoat.2019.125089"
    authors := "Wang et al."
    year := 2020
    title := "TiN coatings on stainless steel for PEM water electrolysis"
    journal := some "Surface and Coatings Technology"
    material := "TiN"
    substrate := "SS316L"
    thickness_nm := some 600
    deposition_method := some "PVD (arc evaporation)"
    corrosion_current_uA_cm2 := some (25/10)
    contact_resistance_mOhm_cm2 := some 15
    test_duration_hours := some 1000
    electrolyte := some "0.5M H2SO4"
    temperature_C := some 70
    potential_V := some (16/10)
    voltage_increase_uV_hr := some 12
    fe_release_ug_cm2_day := some (5/10)
    cr_release_ug_cm2_day := some (3/10)
    cost_estimate_dollar_m2 := some 6
    scalability_notes := some "Low cost, widely available coating process"
    success_rating := some 2
    failure_mode := some "Pinhole formation, accelerated corrosion through defects"
    notes := some "Common baseline but insufficient for long-term durability"
    entry_date := today
    data_quality := some "medium" }

/-- Seed paper 5 (lines 201-225): Lee, Park, Kim et al. 2021, CrN. -/
def paper5 (today : String) : CoatingPerformanceData :=
  { doi := "10.1016/j.electacta.2021.138456"
    authors := "Lee, Park, Kim et al."
    year := 2021
    title := "Chromium nitride coatings for corrosion protection in acidic PEM environments"
    journal := some "Electrochimica Acta"
    material := "CrN"
    substrate := "SS316L"
    thickness_nm := some 750
    deposition_method := some "Magnetron sputtering"
    corrosion_current_uA_cm2 := some (18/10)
    contact_resistance_mOhm_cm2 := some (115/10)
    test_duration_hours := some 1500
    electrolyte := some "1M H2SO4"
    temperature_C := some 80
    potential_V := some (19/10)
    voltage_increase_uV_hr := some (85/10)
    fe_release_ug_cm2_day := some (25/100)
    cost_estimate_dollar_m2 := some (75/10)
    scalability_notes := some "Moderate cost, good process maturity"
    success_rating := some 3
    failure_mode := some "H2 embrittlement concerns, gradual degradation"
    notes := some "Better than TiN but still falls short of 80,000h lifetime requirement"
    entry_date := today
    data_quality := some "high" }

/-- `LiteratureDatabase._initialize_with_key_papers` (lines 87-225): adds the
five seed papers, in order, via `add_entry`. -/
def LiteratureDatabase.init_with_key_papers (db : LiteratureDatabase)
    (today : String) : LiteratureDatabase :=
  ((((db.add_entry (paper1 today)).add_entry (paper2 today)).add_entry
      (paper3 today)).add_entry (paper4 today)).add_entry (paper5 today)

/-- `LiteratureDatabase.__init__` (lines 82-85): starts with an empty entry
list, then pre-populates with the key papers.  `today` stands for the value
produced by the `entry_date` default factory (the current date). -/
def LiteratureDatabase.init (today : String) : LiteratureDatabase :=
  LiteratureDatabase.init_with_key_papers ⟨[]⟩ today

/-- The sort key of `to_dataframe` (line 260): year descending
(`sort_values('year', ascending=False)`). -/
def yearDesc (a b : CoatingPerformanceData) : Prop := b.year ≤ a.year

instance : DecidableRel yearDesc := fun a b =>
  inferInstanceAs (Decidable (b.year ≤ a.year))

instance : IsTotal CoatingPerformanceData yearDesc :=
  ⟨fun a b => le_total b.year a.year⟩

instance : IsTrans CoatingPerformanceData yearDesc :=
  ⟨fun _ _ _ hab hbc => le_trans hbc hab⟩

/-- `LiteratureDatabase.to_dataframe` (lines 246-262): the empty collection
yields an empty frame; otherwise the rows are the entries sorted by year,
most recent first.  pandas' sort algorithm is unspecified up to tie order;
a stable insertion sort realises one admissible order. -/
def LiteratureDatabase.to_dataframe (db : LiteratureDatabase) :
    List CoatingPerformanceData :=
  if db.entries.isEmpty then []
  else db.entries.insertionSort yearDesc

/-- pandas `series <= t` on a column with missing values: `NaN <= t` is
`False`, so a missing value never satisfies the comparison. -/
def pdLe (x : Option ℚ) (t : ℚ) : Bool :=
  match x with
  | some v => decide (v ≤ t)
  | none => false

/-- pandas `series >= t`: `NaN >= t` is `False`. -/
def pdGe (x : Option ℚ) (t : ℚ) : Bool :=
  match x with
  | some v => decide (t ≤ v)
  | none => false

/-- pandas `series < t`: `NaN < t` is `False`. -/
def pdLt (x : Option ℚ) (t : ℚ) : Bool :=
  match x with
  | some v => decide (v < t)
  | none => false

/-- pandas `series >= t` for an integer-valued column with missing values. -/
def pdGeInt (x : Option Int) (t : Int) : Bool :=
  match x with
  | some v => decide (t ≤ v)
  | none => false

/-- pandas `Series.str.contains(pat, case=False)` for the literal patterns
used here: case-insensitive substring occurrence of `pat` in `hay`.  (The
source passes the pattern to a regex engine; for patterns without regex
metacharacters this coincides with substring search.) -/
def strContainsCI (hay pat : String) : Bool :=
  decide (List.IsInfix pat.toLower.toList hay.toLower.toList)

/-- Guard of the `material` filter of `query` (lines 360-361).  Python
truthiness: `if material:` skips the filter for `None` and for the empty
string. -/
def materialGuard (material : Option String) (e : CoatingPerformanceData) : Bool :=
  match material with
  | some p => if p = "" then true else strContainsCI e.material p
  | none => true

/-- Guard of the `substrate` filter of `query` (lines 363-364). -/
def substrateGuard (substrate : Option String) (e : CoatingPerformanceData) : Bool :=
  match substrate with
  | some p => if p = "" then true else strContainsCI e.substrate p
  | none => true

/-- Guard of the `min_test_duration` filter (lines 366-367): applied only
when the argument `is not None`. -/
def durationGuard (mi : Option ℚ) (e : CoatingPerformanceData) : Bool :=
  match mi with
  | some t => pdGe e.test_duration_hours t
  | none => true

/-- Guard of the `max_corrosion_current` filter (lines 369-370). -/
def corrosionGuard (ma : Option ℚ) (e : CoatingPerformanceData) : Bool :=
  match ma with
  | some t => pdLe e.corrosion_current_uA_cm2 t
  | none => true

/-- Guard of the `max_contact_resistance` filter (lines 372-373). -/
def resistanceGuard (ma : Option ℚ) (e : CoatingPerformanceData) : Bool :=
  match ma with
  | some t => pdLe e.contact_resistance_mOhm_cm2 t
  | none => true

/-- Guard of the `min_success_rating` filter (lines 375-376). -/
def ratingGuard (mi : Option Int) (e : CoatingPerformanceData) : Bool :=
  match mi with
  | some t => pdGeInt e.success_rating t
  | none => true

/-- `LiteratureDatabase.query` (lines 335-378): starts from `to_dataframe`
and applies each supplied filter in turn; a filter left at `None` (and, for
the two string filters, the falsy empty string) is skipped. -/
def LiteratureDatabase.query (db : LiteratureDatabase)
    (material substrate : Option String)
    (min_test_duration max_corrosion_current max_contact_resistance : Option ℚ)
    (min_success_rating : Option Int) : List CoatingPerformanceData :=
  let df := db.to_dataframe
  let df := df.filter (materialGuard material)
  let df := df.filter (substrateGuard substrate)
  let df := df.filter (durationGuard min_test_duration)
  let df := df.filter (corrosionGuard max_corrosion_current)
  let df := df.filter (resistanceGuard max_contact_resistance)
  let df := df.filter (ratingGuard min_success_rating)
  df

/-- One row of the frame returned by `benchmark_against_targets`: the
original entry plus the four boolean target columns and their conjunction
(lines 407-418). -/
structure BenchmarkRow where
  entry : CoatingPerformanceData
  meets_resistance_target : Bool
  meets_corrosion_target : Bool
  meets_duration_target : Bool
  meets_cost_target : Bool
  meets_all_targets : Bool
  deriving DecidableEq

/-- The row computation of `benchmark_against_targets` (lines 399-418),
with the fixed `TARGETS` thresholds inlined: contact resistance `<= 10.0`,
corrosion current `<= 1.0`, test duration `>= 2000.0`, cost `<= 10.0`;
`meets_all_targets` is the `&` of the four flags. -/
def benchmarkRow (e : CoatingPerformanceData) : BenchmarkRow :=
  let r := pdLe e.contact_resistance_mOhm_cm2 10
  let c := pdLe e.corrosion_current_uA_cm2 1
  let d := pdGe e.test_duration_hours 2000
  let k := pdLe e.cost_estimate_dollar_m2 10
  ⟨e, r, c, d, k, r && c && d && k⟩

/-- `LiteratureDatabase.benchmark_against_targets` (lines 380-420): the
empty collection yields an empty frame; otherwise every row of
`to_dataframe` is extended with the four target flags and their
conjunction. -/
def LiteratureDatabase.benchmark_against_targets (db : LiteratureDatabase) :
    List BenchmarkRow :=
  if db.to_dataframe.isEmpty then []
  else db.to_dataframe.map benchmarkRow

/-- The hardcoded `promising_classes` list of `_identify_untested_classes`
(lines 454-463). -/
def promising_classes : List String :=
  ["WC (tungsten carbide)", "TaC (tantalum carbide)", "Nb2O5", "IrO2",
   "RuO2", "Multilayer oxide/nitride", "Graphene-enhanced coatings",
   "MAX phase materials"]

/-- `LiteratureDatabase._identify_untested_classes` (lines 448-470): keeps
each promising class whose lowercased name is a substring of no lowercased
material already in the table. -/
def LiteratureDatabase.identify_untested_classes (db : LiteratureDatabase) :
    List String :=
  let tested_materials := db.to_dataframe.map (fun e => e.material.toLower)
  promising_classes.filter
    (fun material => ! tested_materials.any (fun tested => strContainsCI tested material))

/-- The dictionary returned by `identify_research_gaps` (lines 431-444),
with the fixed `recommendations` list omitted (it is a constant). -/
structure ResearchGaps where
  missing_long_term_data : Nat
  missing_cost_data : Nat
  missing_ion_leaching_data : Nat
  missing_degradation_rates : Nat
  untested_material_classes : List String
  limited_long_term_validation : String
  deriving DecidableEq

/-- `LiteratureDatabase.identify_research_gaps` (lines 422-446).
`missing_long_term_data` is the number of rows of the frame with
`test_duration_hours < 10000` (pandas: a missing duration compares
`False`, so such rows are not counted).  Unlike
`benchmark_against_targets` and `get_summary_statistics`, this method has
no `df.empty` guard: on a zero-entry collection `to_dataframe` is the
column-less `pd.DataFrame()`, so the very first column access
`df['test_duration_hours']` raises `KeyError` — modelled by the `.error`
branch.  The columns exist exactly when the frame has at least one row. -/
def LiteratureDatabase.identify_research_gaps (db : LiteratureDatabase) :
    Except String ResearchGaps :=
  let df := db.to_dataframe
  if df.isEmpty then .error "KeyError: test_duration_hours"
  else
    .ok
      { missing_long_term_data :=
          (df.filter (fun e => pdLt e.test_duration_hours 10000)).length
        missing_cost_data :=
          (df.filter (fun e => e.cost_estimate_dollar_m2.isNone)).length
        missing_ion_leaching_data :=
          (df.filter (fun e => e.fe_release_ug_cm2_day.isNone)).length
        missing_degradation_rates :=
          (df.filter (fun e => e.voltage_increase_uV_hr.isNone)).length
        untested_material_classes := db.identify_untested_classes
        limited_long_term_validation :=
          toString (df.filter (fun e => pdGe e.test_duration_hours 10000)).length
            ++ " out of " ++ toString df.length ++ " entries have ≥10,000 hours" }

/-- A Python value supplied in a field-name-to-value mapping.  No coercion
is attached to a value: a dataclass stores whatever object it is given. -/
inductive PyValue where
  | pyNone : PyValue
  | pyInt : Int → PyValue
  | pyFloat : ℚ → PyValue
  | pyStr : String → PyValue
  deriving DecidableEq

/-- The fields of the `CoatingPerformanceData` dataclass in declared order
(lines 28-71), paired with whether the declaration carries a default value
(`= None` or `field(default_factory=...)`). -/
def coatingFields : List (String × Bool) :=
  [("doi", false), ("authors", false), ("year", false), ("title", false),
   ("journal", true), ("material", false), ("substrate", false),
   ("thickness_nm", true), ("deposition_method", true),
   ("corrosion_current_uA_cm2", true), ("contact_resistance_mOhm_cm2", true),
   ("test_duration_hours", true), ("electrolyte", true),
   ("temperature_C", true), ("potential_V", true),
   ("current_density_A_cm2", true), ("voltage_increase_uV_hr", true),
   ("resistance_change_percent", true), ("fe_release_ug_cm2_day", true),
   ("cr_release_ug_cm2_day", true), ("ni_release_ug_cm2_day", true),
   ("cost_estimate_dollar_m2", true), ("scalability_notes", true),
   ("success_rating", true), ("failure_mode", true), ("notes", true),
   ("entry_date", true), ("data_quality", true)]

/-- Python's `@dataclass` rule on field ordering: once a field with a
default has appeared, every later field must also have a default, else the
class definition raises `TypeError` (`non-default argument follows default
argument`). -/
def dataclassOrderOk (fields : List (String × Bool)) : Bool :=
  ((fields.dropWhile (fun f => ! f.2)).all (fun f => f.2))

/-- The valid keyword-argument names of `CoatingPerformanceData(**data)`:
the declared field names. -/
def coatingFieldNames : List String := coatingFields.map Prod.fst

/-- The keyword arguments `CoatingPerformanceData(**data)` requires: the
fields declared without a default — `doi`, `authors`, `year`, `title`,
`material`, `substrate`. -/
def coatingRequiredFields : List String :=
  (coatingFields.filter (fun f => ! f.2)).map Prod.fst

/-- `LiteratureDatabase.add_from_dict` (lines 236-244), i.e. the semantics
of `CoatingPerformanceData(**data)` under CPython keyword binding: the call
raises `TypeError` when a key is not a declared field name or when a
required field is absent; otherwise the record is created and appended with
the supplied values stored verbatim — a dataclass performs no coercion and
no type check, so e.g. a string bound to `year` is accepted.  The result
returns the stored field-to-value binding (fields left to their defaults
are omitted). -/
def add_from_dict (data : List (String × PyValue)) :
    Except String (List (String × PyValue)) :=
  if data.any (fun kv => ! coatingFieldNames.contains kv.1) then
    .error "TypeError: unexpected keyword argument"
  else if coatingRequiredFields.any (fun f => ! (data.map Prod.fst).contains f) then
    .error "TypeError: missing required argument"
  else
    .ok data

/-- `materials_project_collector.py`, `class CoatingCandidate`
(lines 31-49): one coating material candidate. -/
structure CoatingCandidate where
  material_id : String
  formula : String
  composition : String
  formation_energy_per_atom : ℚ
  energy_above_hull : ℚ
  band_gap : ℚ
  density : ℚ
  crystal_system : String
  space_group : String
  volume : ℚ
  elements : String
  nelements : Nat
  material_class : String
  chemical_system : String
  is_stable : Bool
  deriving DecidableEq

/-- One material document returned by the external search service
(`mpr.materials.summary.search`), restricted to the fixed field set
requested at lines 148-160. -/
structure MPDoc where
  material_id : String
  formula_pretty : String
  composition : String
  formation_energy_per_atom : ℚ
  energy_above_hull : ℚ
  band_gap : ℚ
  density : ℚ
  crystal_system : String
  symmetry_symbol : String
  volume : ℚ
  elements : List String
  nelements : Nat
  deriving DecidableEq

/-- The state of `class MaterialsProjectCollector`: resolved credential and
the in-memory candidate list (lines 89, 99). -/
structure MaterialsProjectCollector where
  api_key : String
  candidates : List CoatingCandidate
  deriving DecidableEq

/-- `MaterialsProjectCollector.CONDUCTIVE_OXIDES` (lines 62-66). -/
def CONDUCTIVE_OXIDES : List String :=
  ["Sn-O", "In-O", "Ir-O", "Ti-O", "Ru-O", "Nb-O", "Ta-O", "In-Sn-O",
   "Zr-O", "Hf-O"]

/-- `MaterialsProjectCollector.NITRIDES` (lines 68-71). -/
def NITRIDES : List String :=
  ["Ti-N", "Cr-N", "Zr-N", "Ta-N", "V-N", "Nb-N", "W-N", "Mo-N", "Al-N",
   "Hf-N", "Si-N"]

/-- `MaterialsProjectCollector.CARBIDES` (lines 73-76). -/
def CARBIDES : List String :=
  ["Ti-C", "W-C", "Ta-C", "Cr-C", "Zr-C", "Nb-C", "V-C", "Mo-C", "Si-C",
   "Hf-C", "B-C"]

/-- Python truthiness of an optional string: `None` and `""` are falsy. -/
def pyTruthy (s : Option String) : Bool :=
  match s with
  | some v => v ≠ ""
  | none => false

/-- `MaterialsProjectCollector.__init__` (lines 78-99):
`self.api_key = api_key or os.getenv("MP_API_KEY")`, then a falsy resolved
key raises `ValueError` before anything else happens; otherwise the
candidate list starts empty.  `env` is the value of the `MP_API_KEY`
environment variable (absent or set). -/
def MaterialsProjectCollector.init (api_key env : Option String) :
    Except String MaterialsProjectCollector :=
  let resolved := if pyTruthy api_key then api_key else env
  if pyTruthy resolved then
    .ok ⟨resolved.getD "", []⟩
  else
    .error "Materials Project API key not found"

/-- Step 2 of `collect_coating_candidates` (lines 125-132): the ordered
list of `(chemical_system, material_class)` pairs built from the included
catalogues, catalogue order oxides-nitrides-carbides, within-catalogue
order preserved. -/
def systems_to_search (include_oxides include_nitrides include_carbides : Bool) :
    List (String × String) :=
  (if include_oxides then CONDUCTIVE_OXIDES.map (fun s => (s, "oxide")) else [])
    ++ (if include_nitrides then NITRIDES.map (fun s => (s, "nitride")) else [])
    ++ (if include_carbides then CARBIDES.map (fun s => (s, "carbide")) else [])

/-- Candidate construction from one returned document (lines 166-190):
`is_stable` is `energy_above_hull <= stability_threshold`; the material
class and originating chemical system are attached. -/
def mkCandidate (stability_threshold : ℚ) (material_class chemical_system : String)
    (doc : MPDoc) : CoatingCandidate :=
  { material_id := doc.material_id
    formula := doc.formula_pretty
    composition := doc.composition
    formation_energy_per_atom := doc.formation_energy_per_atom
    energy_above_hull := doc.energy_above_hull
    band_gap := doc.band_gap
    density := doc.density
    crystal_system := doc.crystal_system
    space_group := doc.symmetry_symbol
    volume := doc.volume
    elements := String.intercalate "-" doc.elements
    nelements := doc.nelements
    material_class := material_class
    chemical_system := chemical_system
    is_stable := doc.energy_above_hull ≤ stability_threshold }

/-- Outcome of the search loop of `collect_coating_candidates`
(lines 139-200): the appended candidates, the warnings issued, and the log
of chemical systems for which a search was attempted, in order. -/
structure LoopOutcome where
  candidates : List CoatingCandidate
  warnings : List String
  searched : List String
  deriving DecidableEq

/-- The per-system loop of `collect_coating_candidates` (lines 140-200):
one search per `(system, class)` pair; a successful search appends one
candidate per returned document; a failing search issues the warning
`Failed to retrieve <system>: <error>` and the loop continues with the
remaining systems.  `search` models the external material-search service. -/
def collectLoop (search : String → Except String (List MPDoc))
    (stability_threshold : ℚ) :
    List (String × String) → LoopOutcome
  | [] => ⟨[], [], []⟩
  | (sys, cls) :: rest =>
    let tail := collectLoop search stability_threshold rest
    match search sys with
    | .ok docs =>
        ⟨docs.map (mkCandidate stability_threshold cls sys) ++ tail.candidates,
         tail.warnings, sys :: tail.searched⟩
    | .error e =>
        ⟨tail.candidates,
         ("Failed to retrieve " ++ sys ++ ": " ++ e) :: tail.warnings,
         sys :: tail.searched⟩

/-- The sort key of `_to_dataframe` (line 226): energy above hull
ascending (`sort_values('energy_above_hull')`). -/
def hullAsc (a b : CoatingCandidate) : Prop :=
  a.energy_above_hull ≤ b.energy_above_hull

instance : DecidableRel hullAsc := fun a b =>
  inferInstanceAs (Decidable (a.energy_above_hull ≤ b.energy_above_hull))

instance : IsTotal CoatingCandidate hullAsc :=
  ⟨fun a b => le_total a.energy_above_hull b.energy_above_hull⟩

instance : IsTrans CoatingCandidate hullAsc :=
  ⟨fun _ _ _ hab hbc => le_trans hab hbc⟩

/-- `MaterialsProjectCollector._to_dataframe` (lines 217-228): an empty
candidate list yields an empty frame; otherwise the candidates sorted by
energy above hull, most stable first. -/
def MaterialsProjectCollector.to_dataframe (c : MaterialsProjectCollector) :
    List CoatingCandidate :=
  if c.candidates.isEmpty then []
  else c.candidates.insertionSort hullAsc

/-- Result of `collect_coating_candidates`: the updated collector state,
the returned frame, and the observable warnings and search log. -/
structure CollectResult where
  collector : MaterialsProjectCollector
  df : List CoatingCandidate
  warnings : List String
  searched : List String
  deriving DecidableEq

/-- `MaterialsProjectCollector.collect_coating_candidates` (lines 101-215):
resets `self.candidates` to empty (line 123), builds the system list from
the inclusion flags, runs the search loop, stores the collected candidates
and returns the derived frame. -/
def MaterialsProjectCollector.collect_coating_candidates
    (c : MaterialsProjectCollector) (stability_threshold : ℚ)
    (include_oxides include_nitrides include_carbides : Bool)
    (search : String → Except String (List MPDoc)) : CollectResult :=
  let systems := systems_to_search include_oxides include_nitrides include_carbides
  let o := collectLoop search stability_threshold systems
  let c2 : MaterialsProjectCollector := { c with candidates := o.candidates }
  ⟨c2, c2.to_dataframe, o.warnings, o.searched⟩

/-- A concrete literature entry used to instantiate the theorems below:
all four benchmark metrics present, contact resistance exactly on the 10.0
boundary. -/
def demoEntry : CoatingPerformanceData :=
  { doi := "10.0/demo"
    authors := "Demo"
    year := 2024
    title := "Demo entry"
    material := "NbC"
    substrate := "SS316L"
    corrosion_current_uA_cm2 := some 1
    contact_resistance_mOhm_cm2 := some 10
    test_duration_hours := some 3000
    cost_estimate_dollar_m2 := some 9
    success_rating := some 4
    entry_date := "2026-01-01" }

/-- A one-entry database built around `demoEntry`. -/
def demoDb : LiteratureDatabase := ⟨[demoEntry]⟩

/-- A field mapping whose `year` value is a string that cannot be coerced
to an integer, with all six mandatory fields supplied. -/
def badYearDict : List (String × PyValue) :=
  [("doi", PyValue.pyStr "10.1016/x"), ("authors", PyValue.pyStr "A"),
   ("year", PyValue.pyStr "twenty seventeen"), ("title", PyValue.pyStr "T"),
   ("material", PyValue.pyStr "TiN"), ("substrate", PyValue.pyStr "SS316L")]

/-- A well-formed field mapping (all mandatory fields, an integer year). -/
def goodDict : List (String × PyValue) :=
  [("doi", PyValue.pyStr "10.1016/y"), ("authors", PyValue.pyStr "B"),
   ("year", PyValue.pyInt 2022), ("title", PyValue.pyStr "U"),
   ("material", PyValue.pyStr "CrN"), ("substrate", PyValue.pyStr "SS316L")]

/-- A freshly initialised collector with a resolved credential. -/
def demoCollector : MaterialsProjectCollector := ⟨"demo-key", []⟩

/-- A search oracle that fails on the first oxide system `Sn-O` and
returns no documents elsewhere. -/
def failSnO : String → Except String (List MPDoc) :=
  fun s => if s = "Sn-O" then .error "boom" else .ok []

/-! ## Lemmas -/

theorem pdLe_eq_true_iff (x : Option ℚ) (t : ℚ) :
    pdLe x t = true ↔ ∃ v, x = some v ∧ v ≤ t := by
  cases x <;> simp [pdLe]

theorem pdGe_eq_true_iff (x : Option ℚ) (t : ℚ) :
    pdGe x t = true ↔ ∃ v, x = some v ∧ t ≤ v := by
  cases x <;> simp [pdGe]

/-- The rows of the derived frame are a permutation of the stored
entries. -/
theorem to_dataframe_perm (db : LiteratureDatabase) :
    db.to_dataframe.Perm db.entries := by
  unfold LiteratureDatabase.to_dataframe
  by_cases h : db.entries.isEmpty
  · rw [if_pos h, List.isEmpty_iff.mp h]
  · rw [if_neg h]
    exact List.perm_insertionSort yearDesc db.entries

/-- Membership characterisation of `query`: a row is in the result iff it
is a row of the full frame and every guard holds for it. -/
theorem mem_query_iff (db : LiteratureDatabase)
    (material substrate : Option String)
    (dmin cmax rmax : Option ℚ) (smin : Option Int)
    (e : CoatingPerformanceData) :
    e ∈ db.query material substrate dmin cmax rmax smin ↔
      e ∈ db.to_dataframe ∧ materialGuard material e = true
        ∧ substrateGuard substrate e = true ∧ durationGuard dmin e = true
        ∧ corrosionGuard cmax e = true ∧ resistanceGuard rmax e = true
        ∧ ratingGuard smin e = true := by
  simp only [LiteratureDatabase.query, List.mem_filter]
  tauto

theorem materialGuard_none (e : CoatingPerformanceData) :
    materialGuard none e = true := rfl

theorem substrateGuard_none (e : CoatingPerformanceData) :
    substrateGuard none e = true := rfl

theorem durationGuard_none (e : CoatingPerformanceData) :
    durationGuard none e = true := rfl

theorem corrosionGuard_none (e : CoatingPerformanceData) :
    corrosionGuard none e = true := rfl

theorem resistanceGuard_none (e : CoatingPerformanceData) :
    resistanceGuard none e = true := rfl

theorem ratingGuard_none (e : CoatingPerformanceData) :
    ratingGuard none e = true := rfl

/-- The search loop attempts exactly one search per listed system, in list
order, whatever the oracle answers. -/
theorem collectLoop_searched (search : String → Except String (List MPDoc))
    (t : ℚ) (l : List (String × String)) :
    (collectLoop search t l).searched = l.map Prod.fst := by
  induction l with
  | nil => rfl
  | cons p rest ih =>
    obtain ⟨sys, cls⟩ := p
    cases hs : search sys <;> simp [collectLoop, hs, ih]

/-- A failing system produces its warning, wherever it sits in the list. -/
theorem collectLoop_warning (search : String → Except String (List MPDoc))
    (t : ℚ) (l : List (String × String)) (sys e : String)
    (he : search sys = .error e) (hmem : sys ∈ l.map Prod.fst) :
    ("Failed to retrieve " ++ sys ++ ": " ++ e)
      ∈ (collectLoop search t l).warnings := by
  revert hmem
  induction l with
  | nil => intro hmem; simp at hmem
  | cons p rest ih =>
    intro hmem
    obtain ⟨s0, c0⟩ := p
    rw [List.map_cons] at hmem
    rcases List.mem_cons.mp hmem with heq | hrest
    · subst heq
      simp [collectLoop, he]
    · cases hs : search s0 <;> simp only [collectLoop, hs]
      · exact List.mem_cons_of_mem _ (ih hrest)
      · exact ih hrest

/-! ## Claim theorems -/

/-- C10: every freshly constructed `LiteratureDatabase` is pre-populated by
the constructor with exactly the five fixed seed papers (in insertion
order), so a new instance never starts as an empty store.  `today` is the
entry date stamped by the default factory. -/
theorem claim_C10_constructor_seeds_five :
    ∀ today : String,
      (LiteratureDatabase.init today).entries
          = [paper1 today, paper2 today, paper3 today, paper4 today, paper5 today]
        ∧ (LiteratureDatabase.init today).entries.length = 5
        ∧ (LiteratureDatabase.init today).entries ≠ [] := by
  intro today
  refine ⟨rfl, rfl, ?_⟩
  intro h
  have h5 : ([] : List CoatingPerformanceData).length = 5 := by
    rw [← h]; rfl
  simp at h5

/-- C5: for every collection the derived frame has exactly as many rows as
there are records, the literature frame is sorted descending by year, the
candidate frame is sorted ascending by energy above hull, and the empty
collection yields an empty frame (never fails). -/
theorem claim_C5_to_dataframe_rows_and_order :
    (∀ db : LiteratureDatabase, db.to_dataframe.length = db.entries.length)
      ∧ (∀ db : LiteratureDatabase, List.Sorted yearDesc db.to_dataframe)
      ∧ LiteratureDatabase.to_dataframe ⟨[]⟩ = []
      ∧ (∀ c : MaterialsProjectCollector,
          c.to_dataframe.length = c.candidates.length)
      ∧ (∀ c : MaterialsProjectCollector, List.Sorted hullAsc c.to_dataframe)
      ∧ MaterialsProjectCollector.to_dataframe ⟨"key", []⟩ = [] := by
  refine ⟨fun db => ?_, fun db => ?_, rfl, fun c => ?_, fun c => ?_, rfl⟩
  · exact (to_dataframe_perm db).length_eq
  · unfold LiteratureDatabase.to_dataframe
    by_cases h : db.entries.isEmpty
    · rw [if_pos h]; exact List.sorted_nil
    · rw [if_neg h]; exact List.sorted_insertionSort yearDesc db.entries
  · unfold MaterialsProjectCollector.to_dataframe
    by_cases h : c.candidates.isEmpty
    · rw [if_pos h, List.isEmpty_iff.mp h]
    · rw [if_neg h]; exact List.length_insertionSort hullAsc c.candidates
  · unfold MaterialsProjectCollector.to_dataframe
    by_cases h : c.candidates.isEmpty
    · rw [if_pos h]; exact List.sorted_nil
    · rw [if_neg h]; exact List.sorted_insertionSort hullAsc c.candidates

/-- C8: for every prior collector state, `collect_coating_candidates` with
all three inclusion flags false replaces the candidate collection with the
empty one (full replace, not accumulation), returns an empty frame, and
attempts no search against the external service (empty search log, no
warnings). -/
theorem claim_C8_collect_all_flags_false :
    ∀ (c : MaterialsProjectCollector) (thr : ℚ)
      (search : String → Except String (List MPDoc)),
      (c.collect_coating_candidates thr false false false search).collector
          = { c with candidates := [] }
        ∧ (c.collect_coating_candidates thr false false false search).df = []
        ∧ (c.collect_coating_candidates thr false false false search).searched = []
        ∧ (c.collect_coating_candidates thr false false false search).warnings = [] :=
  fun _ _ _ => ⟨rfl, rfl, rfl, rfl⟩

/-- C7: constructing a collector with a falsy credential resolution (no
`api_key` argument and no non-empty `MP_API_KEY` environment value) fails
with a `ValueError` at construction time; a non-empty credential (argument
or environment) constructs successfully with an empty candidate
collection. -/
theorem claim_C7_init_credential :
    (∀ api_key env : Option String,
        pyTruthy api_key = false → pyTruthy env = false →
          ∃ msg, MaterialsProjectCollector.init api_key env = .error msg)
      ∧ (∀ k : String, k ≠ "" → ∀ env : Option String,
          ∃ c, MaterialsProjectCollector.init (some k) env = .ok c
            ∧ c.api_key = k ∧ c.candidates = [])
      ∧ (∀ e : String, e ≠ "" →
          ∃ c, MaterialsProjectCollector.init none (some e) = .ok c
            ∧ c.api_key = e ∧ c.candidates = []) := by
  refine ⟨fun api_key env h1 h2 => ?_, fun k hk env => ?_, fun e he => ?_⟩
  · refine ⟨"Materials Project API key not found", ?_⟩
    unfold MaterialsProjectCollector.init
    rw [if_neg]
    rw [h1]
    simpa using h2
  · refine ⟨⟨k, []⟩, ?_, rfl, rfl⟩
    unfold MaterialsProjectCollector.init
    have ht : pyTruthy (some k) = true := by simpa [pyTruthy] using hk
    rw [if_pos (by rw [if_pos ht]; exact ht)]
    simp [if_pos ht]
  · refine ⟨⟨e, []⟩, ?_, rfl, rfl⟩
    unfold MaterialsProjectCollector.init
    have hf : pyTruthy (none : Option String) = false := rfl
    have ht : pyTruthy (some e) = true := by simpa [pyTruthy] using he
    rw [if_pos (by rw [hf, if_neg (by simp)]; exact ht)]
    simp [hf]

/-- Witness for C7: with neither argument nor environment credential the
constructor fails; with the argument `"demo-key"` it succeeds and the
candidate collection starts empty. -/
theorem claim_C7_witness :
    (∃ msg, MaterialsProjectCollector.init none none = .error msg)
      ∧ (∃ c, MaterialsProjectCollector.init (some "demo-key") none = .ok c
          ∧ c.api_key = "demo-key" ∧ c.candidates = []) :=
  ⟨claim_C7_init_credential.1 none none rfl rfl,
   claim_C7_init_credential.2.1 "demo-key" (by decide) none⟩

/-- C2: for every record in the collection, each benchmark flag is true
iff the underlying metric is present and meets its boundary-inclusive
threshold (contact resistance `≤ 10.0`, corrosion current `≤ 1.0`, test
duration `≥ 2000.0`, cost `≤ 10.0`); a record with the metric absent fails
that flag; and `meets_all_targets` is the conjunction of the four flags. -/
theorem claim_C2_benchmark_flags :
    ∀ (db : LiteratureDatabase) (row : BenchmarkRow),
      row ∈ db.benchmark_against_targets →
        (row.meets_resistance_target = true
            ↔ ∃ v, row.entry.contact_resistance_mOhm_cm2 = some v ∧ v ≤ 10)
        ∧ (row.meets_corrosion_target = true
            ↔ ∃ v, row.entry.corrosion_current_uA_cm2 = some v ∧ v ≤ 1)
        ∧ (row.meets_duration_target = true
            ↔ ∃ v, row.entry.test_duration_hours = some v ∧ 2000 ≤ v)
        ∧ (row.meets_cost_target = true
            ↔ ∃ v, row.entry.cost_estimate_dollar_m2 = some v ∧ v ≤ 10)
        ∧ row.meets_all_targets
            = (row.meets_resistance_target && row.meets_corrosion_target
                && row.meets_duration_target && row.meets_cost_target) := by
  intro db row h
  unfold LiteratureDatabase.benchmark_against_targets at h
  by_cases hemp : db.to_dataframe.isEmpty
  · rw [if_pos hemp] at h
    simp at h
  · rw [if_neg hemp] at h
    rcases List.mem_map.mp h with ⟨e, _, rfl⟩
    refine ⟨?_, ?_, ?_, ?_, ?_⟩ <;>
      simp [benchmarkRow, pdLe_eq_true_iff, pdGe_eq_true_iff]

/-- Witness for C2: in the one-entry database around `demoEntry`, whose
contact resistance is exactly `10.0`, the resistance flag of its benchmark
row is true (boundary inclusive). -/
theorem claim_C2_witness :
    (benchmarkRow demoEntry).meets_resistance_target = true
      ∧ (benchmarkRow demoEntry).entry.contact_resistance_mOhm_cm2 = some 10 :=
  ⟨((claim_C2_benchmark_flags demoDb (benchmarkRow demoEntry) (by decide)).1).mpr
      ⟨10, rfl, le_refl 10⟩, rfl⟩

/-- C3: a record whose value for a filtered numeric field is absent never
appears in the result of `query` with that filter set; and on the seeded
database (contact resistances 8.5, 12.0, 6.2, 15.0, 11.5),
`query(max_contact_resistance=10.0)` returns exactly the two records with
values 6.2 (Wakayama 2021) and 8.5 (Lettenmeier 2017), in frame order. -/
theorem claim_C3_numeric_filters_exclude_missing :
    (∀ (db : LiteratureDatabase) (m s : Option String) (t : ℚ)
        (cmax rmax : Option ℚ) (smin : Option Int) (e : CoatingPerformanceData),
        e ∈ db.query m s (some t) cmax rmax smin → e.test_duration_hours ≠ none)
      ∧ (∀ (db : LiteratureDatabase) (m s : Option String) (dmin : Option ℚ)
          (t : ℚ) (rmax : Option ℚ) (smin : Option Int) (e : CoatingPerformanceData),
          e ∈ db.query m s dmin (some t) rmax smin → e.corrosion_current_uA_cm2 ≠ none)
      ∧ (∀ (db : LiteratureDatabase) (m s : Option String) (dmin cmax : Option ℚ)
          (t : ℚ) (smin : Option Int) (e : CoatingPerformanceData),
          e ∈ db.query m s dmin cmax (some t) smin → e.contact_resistance_mOhm_cm2 ≠ none)
      ∧ (∀ (db : LiteratureDatabase) (m s : Option String) (dmin cmax rmax : Option ℚ)
          (t : Int) (e : CoatingPerformanceData),
          e ∈ db.query m s dmin cmax rmax (some t) → e.success_rating ≠ none)
      ∧ (∀ today : String,
          (LiteratureDatabase.init today).query none none none none (some 10) none
              = [paper3 today, paper1 today]
            ∧ ((LiteratureDatabase.init today).query none none none none (some 10) none).map
                  (fun e => e.contact_resistance_mOhm_cm2)
                = [some (62/10), some (85/10)]) := by
  have scenario : ∀ today : String,
      (LiteratureDatabase.init today).query none none none none (some 10) none
        = [paper3 today, paper1 today] := by
    intro today
    norm_num [LiteratureDatabase.init, LiteratureDatabase.init_with_key_papers,
      LiteratureDatabase.add_entry, LiteratureDatabase.query,
      LiteratureDatabase.to_dataframe, List.insertionSort, List.orderedInsert,
      yearDesc, List.filter, materialGuard, substrateGuard, durationGuard,
      corrosionGuard, resistanceGuard, ratingGuard, pdLe, paper1, paper2,
      paper3, paper4, paper5]
  refine ⟨?_, ?_, ?_, ?_, fun today => ⟨scenario today, by rw [scenario today]; rfl⟩⟩
  · intro db m s t cmax rmax smin e h hnone
    have hg := ((mem_query_iff db m s (some t) cmax rmax smin e).mp h).2.2.2.1
    simp [durationGuard, hnone, pdGe] at hg
  · intro db m s dmin t rmax smin e h hnone
    have hg := ((mem_query_iff db m s dmin (some t) rmax smin e).mp h).2.2.2.2.1
    simp [corrosionGuard, hnone, pdLe] at hg
  · intro db m s dmin cmax t smin e h hnone
    have hg := ((mem_query_iff db m s dmin cmax (some t) smin e).mp h).2.2.2.2.2.1
    simp [resistanceGuard, hnone, pdLe] at hg
  · intro db m s dmin cmax rmax t e h hnone
    have hg := ((mem_query_iff db m s dmin cmax rmax (some t) e).mp h).2.2.2.2.2.2
    simp [ratingGuard, hnone, pdGeInt] at hg

/-- Witness for C3: `demoEntry` is returned by a query of its one-entry
database with `min_test_duration=1000`, so its test duration is not
absent. -/
theorem claim_C3_witness : demoEntry.test_duration_hours ≠ none :=
  claim_C3_numeric_filters_exclude_missing.1 demoDb none none 1000 none none
    none demoEntry (by decide)

/-- C4: `query` with no filters set returns the full frame unchanged, and
the result with several filters set is the intersection of the individual
filters' results: a row is in the combined result iff it is in the result
of each filter applied alone (filters left unset are ignored). -/
theorem claim_C4_query_conjunctive :
    (∀ db : LiteratureDatabase,
        db.query none none none none none none = db.to_dataframe)
      ∧ (∀ (db : LiteratureDatabase) (m s : Option String)
          (dmin cmax rmax : Option ℚ) (smin : Option Int)
          (e : CoatingPerformanceData),
          e ∈ db.query m s dmin cmax rmax smin ↔
            e ∈ db.query m none none none none none
              ∧ e ∈ db.query none s none none none none
              ∧ e ∈ db.query none none dmin none none none
              ∧ e ∈ db.query none none none cmax none none
              ∧ e ∈ db.query none none none none rmax none
              ∧ e ∈ db.query none none none none none smin) := by
  constructor
  · intro db
    show ((((((db.to_dataframe.filter (materialGuard none)).filter
        (substrateGuard none)).filter (durationGuard none)).filter
        (corrosionGuard none)).filter (resistanceGuard none)).filter
        (ratingGuard none)) = db.to_dataframe
    rw [List.filter_eq_self.mpr (fun a _ => ratingGuard_none a),
      List.filter_eq_self.mpr (fun a _ => resistanceGuard_none a),
      List.filter_eq_self.mpr (fun a _ => corrosionGuard_none a),
      List.filter_eq_self.mpr (fun a _ => durationGuard_none a),
      List.filter_eq_self.mpr (fun a _ => substrateGuard_none a),
      List.filter_eq_self.mpr (fun a _ => materialGuard_none a)]
  · intro db m s dmin cmax rmax smin e
    simp only [mem_query_iff, materialGuard_none, substrateGuard_none,
      durationGuard_none, corrosionGuard_none, resistanceGuard_none,
      ratingGuard_none, true_and, and_true]
    tauto

/-- Witness for C4: in `demoEntry`'s one-entry database, membership of
`demoEntry` in a two-filter query coincides with joint membership in the
two one-filter queries. -/
theorem claim_C4_witness :
    demoEntry ∈ demoDb.query (some "NbC") none (some 1000) none none none ↔
      demoEntry ∈ demoDb.query (some "NbC") none none none none none
        ∧ demoEntry ∈ demoDb.query none none none none none none
        ∧ demoEntry ∈ demoDb.query none none (some 1000) none none none
        ∧ demoEntry ∈ demoDb.query none none none none none none
        ∧ demoEntry ∈ demoDb.query none none none none none none
        ∧ demoEntry ∈ demoDb.query none none none none none none :=
  claim_C4_query_conjunctive.2 demoDb (some "NbC") none (some 1000) none none
    none demoEntry

/-- C6: during `collect_coating_candidates`, one search is attempted for
every chemical system of the built list, in order, whatever the outcome of
any individual search — so a per-system failure never aborts the run and
every subsequent system is still searched; a failing system is reported as
a warning; and the full system list holds no duplicate, so each system is
searched exactly once per run. -/
theorem claim_C6_per_system_failure_tolerance :
    (∀ (c : MaterialsProjectCollector) (thr : ℚ) (io iN iC : Bool)
        (search : String → Except String (List MPDoc)),
        (c.collect_coating_candidates thr io iN iC search).searched
          = (systems_to_search io iN iC).map Prod.fst)
      ∧ (∀ (c : MaterialsProjectCollector) (thr : ℚ) (io iN iC : Bool)
          (search : String → Except String (List MPDoc)) (sys e : String),
          sys ∈ (systems_to_search io iN iC).map Prod.fst →
          search sys = .error e →
            ("Failed to retrieve " ++ sys ++ ": " ++ e)
              ∈ (c.collect_coating_candidates thr io iN iC search).warnings)
      ∧ ((systems_to_search true true true).map Prod.fst).Nodup := by
  refine ⟨?_, ?_, by decide⟩
  · intro c thr io iN iC search
    exact collectLoop_searched search thr (systems_to_search io iN iC)
  · intro c thr io iN iC search sys e hmem he
    exact collectLoop_warning search thr (systems_to_search io iN iC) sys e he hmem

/-- Witness for C6: with a search oracle failing on `Sn-O`, collecting the
oxide catalogue records the warning for `Sn-O` and still searches every
oxide system, in catalogue order. -/
theorem claim_C6_witness :
    ("Failed to retrieve " ++ "Sn-O" ++ ": " ++ "boom")
        ∈ (demoCollector.collect_coating_candidates (1/10) true false false
            failSnO).warnings
      ∧ (demoCollector.collect_coating_candidates (1/10) true false false
            failSnO).searched = CONDUCTIVE_OXIDES :=
  ⟨claim_C6_per_system_failure_tolerance.2.1 demoCollector (1/10) true false
      false failSnO "Sn-O" "boom" (by decide) rfl,
   (claim_C6_per_system_failure_tolerance.1 demoCollector (1/10) true false
      false failSnO).trans (by decide)⟩

/-- C9 counterexample: on the empty collection `identify_research_gaps`
does not report a count at all — the derived frame is the column-less
`pd.DataFrame()` and the first column access raises `KeyError` — so the
claim's "for every collection ... reports" fails at the empty
collection. -/
theorem claim_C9_counterexample :
    LiteratureDatabase.identify_research_gaps ⟨[]⟩
      = .error "KeyError: test_duration_hours" := rfl

/-- C9 (amended): for every non-empty collection,
`identify_research_gaps` succeeds and reports `missing_long_term_data` as
the number of records whose test duration is present and below 10,000
hours; when moreover every entry has a present test duration below
10,000 h this count equals the total entry count.  (On the empty
collection the method raises `KeyError` instead of reporting.) -/
theorem claim_C9_research_gaps_long_term :
    (∀ db : LiteratureDatabase, db.entries ≠ [] →
        ∃ g, db.identify_research_gaps = .ok g
          ∧ g.missing_long_term_data
              = db.entries.countP (fun e => pdLt e.test_duration_hours 10000))
      ∧ (∀ db : LiteratureDatabase, db.entries ≠ [] →
          (∀ e ∈ db.entries, pdLt e.test_duration_hours 10000 = true) →
            ∃ g, db.identify_research_gaps = .ok g
              ∧ g.missing_long_term_data = db.entries.length) := by
  have hok : ∀ db : LiteratureDatabase, db.entries ≠ [] →
      ∃ g, db.identify_research_gaps = .ok g
        ∧ g.missing_long_term_data
            = db.entries.countP (fun e => pdLt e.test_duration_hours 10000) := by
    intro db hne
    have hdfne : db.to_dataframe ≠ [] := by
      intro h
      apply hne
      have hlen := (to_dataframe_perm db).length_eq
      rw [h] at hlen
      exact List.length_eq_zero.mp hlen.symm
    have hemp : ¬ db.to_dataframe.isEmpty = true := by
      intro h
      exact hdfne (List.isEmpty_iff.mp h)
    unfold LiteratureDatabase.identify_research_gaps
    rw [if_neg hemp]
    refine ⟨_, rfl, ?_⟩
    show (db.to_dataframe.filter (fun e => pdLt e.test_duration_hours 10000)).length
      = db.entries.countP (fun e => pdLt e.test_duration_hours 10000)
    rw [← List.countP_eq_length_filter]
    exact (to_dataframe_perm db).countP_eq _
  refine ⟨hok, fun db hne hall => ?_⟩
  obtain ⟨g, hg, hc⟩ := hok db hne
  refine ⟨g, hg, ?_⟩
  rw [hc]
  exact List.countP_eq_length.mpr hall

/-- Witness for C9: the seeded database is non-empty and every seeded
entry has a present test duration below 10,000 h (3000, 2000, 5000, 1000,
1500), so `identify_research_gaps` succeeds with `missing_long_term_data`
equal to the entry count. -/
theorem claim_C9_witness :
    ∃ g, (LiteratureDatabase.init "2026-01-01").identify_research_gaps = .ok g
      ∧ g.missing_long_term_data
          = (LiteratureDatabase.init "2026-01-01").entries.length :=
  claim_C9_research_gaps_long_term.2 (LiteratureDatabase.init "2026-01-01")
    (by decide) (by decide)

/-- C1 counterexample: a field mapping with all six mandatory fields but a
`year` value that is a string (not coercible to an integer) is accepted by
`add_from_dict` — the constructed record stores the string verbatim — so
the claim that such a mapping fails with a `ValidationError` is false. -/
theorem claim_C1_counterexample :
    add_from_dict badYearDict = .ok badYearDict
      ∧ ("year", PyValue.pyStr "twenty seventeen") ∈ badYearDict :=
  ⟨rfl, by decide⟩

/-- C1 (amended): `add_from_dict` succeeds iff every supplied key is a
declared field name and every mandatory field (`doi`, `authors`, `year`,
`title`, `material`, `substrate`) is supplied; supplied values are stored
without coercion or type checking, so a value of the wrong declared type
never causes a failure. -/
theorem claim_C1_add_from_dict_amended :
    ∀ data : List (String × PyValue),
      (∃ r, add_from_dict data = .ok r) ↔
        ((∀ kv ∈ data, kv.1 ∈ coatingFieldNames)
          ∧ ∀ f ∈ coatingRequiredFields, f ∈ data.map Prod.fst) := by
  intro data
  unfold add_from_dict
  by_cases h1 : data.any (fun kv => ! coatingFieldNames.contains kv.1)
  · rw [if_pos h1]
    simp only [List.any_eq_true] at h1
    obtain ⟨kv, hkv, hcon⟩ := h1
    constructor
    · rintro ⟨r, hr⟩
      exact Except.noConfusion hr
    · rintro ⟨hall, -⟩
      exact absurd (hall kv hkv) (by simpa using hcon)
  · rw [if_neg h1]
    by_cases h2 : coatingRequiredFields.any
        (fun f => ! (data.map Prod.fst).contains f)
    · rw [if_pos h2]
      simp only [List.any_eq_true] at h2
      obtain ⟨f, hf, hcon⟩ := h2
      constructor
      · rintro ⟨r, hr⟩
        exact Except.noConfusion hr
      · rintro ⟨-, hreq⟩
        exact absurd (hreq f hf) (by simpa using hcon)
    · rw [if_neg h2]
      constructor
      · intro _
        constructor
        · intro kv hkv
          by_contra hc
          exact h1 (List.any_eq_true.mpr ⟨kv, hkv, by simpa using hc⟩)
        · intro f hf
          by_contra hc
          exact h2 (List.any_eq_true.mpr ⟨f, hf, by simpa using hc⟩)
      · intro _
        exact ⟨data, rfl⟩

/-- Witness for C1: a well-formed mapping (all six mandatory fields, an
integer year) is accepted. -/
theorem claim_C1_witness : ∃ r, add_from_dict goodDict = .ok r :=
  (claim_C1_add_from_dict_amended goodDict).mpr (by decide)

/-- The `CoatingPerformanceData` dataclass declaration violates Python's
field-ordering rule: `journal` carries a default but `material` and
`substrate` after it do not, so the `@dataclass` decorator raises
`TypeError` when `literature_database.py` is imported. -/
theorem coatingFields_order_rejected : dataclassOrderOk coatingFields = false := by
  decide

end PemCloak
